import Mathlib

/-!
Shallow embedding of the authentication and credential-recovery core of the
lumina-backend repository.

Sources embedded:
- src/controllers/auth.controller.ts (strict variant, with password-policy
  enforcement on signUp and resetPassword, as adopted by the spec):
  signUp, login, forgotPassword, resetPassword.
- src/controllers/user.controller.ts: me, updateMe, deleteMe, changePassword.
- src/middleware/auth.ts: requireAuth.
- src/utils/validatePassword.ts: validatePasswordStrength.
- src/models/User.ts: the user record shape.

External effects are modelled as explicit parameters: the bcrypt salt, the
random raw reset token, the current time (milliseconds), the mail-delivery
outcome, and the JWT_SECRET environment variable. bcrypt and SHA-256 are
modelled as injective constructions that expose exactly the observable
behavior the controllers rely on (verify succeeds on the hashed plaintext,
equal inputs give equal hashes). The document store is a list of user
records; mongoose findOne / save / findByIdAndUpdate become list lookup and
in-place replacement by id.
-/

namespace Lumina

/-- Model of a bcrypt digest: `bcrypt.hash(pw, 10)` with an explicit salt.
Verification recovers exactly the "verify(p, hash_s(p)) = true" behavior. -/
structure BDigest where
  salt : Nat
  pw : String
deriving DecidableEq

/-- Model of `bcrypt.hash(plaintext, 10)`; the salt is the random input. -/
def bcryptHash (salt : Nat) (pw : String) : BDigest := ⟨salt, pw⟩

/-- Model of `bcrypt.compare(plaintext, digest)`. -/
def bcryptCompare (pw : String) (d : BDigest) : Bool := pw == d.pw

/-- Model of hex-encoded SHA-256 as used by the controllers
(an injective tagging function; the controllers only compare digests). -/
def sha256 (s : String) : String := "sha256:".append s

/-- Model of a signed JSON Web Token `jwt.sign(\x7b id \x7d, secret, expiresIn)`:
the signature is modelled by carrying the signing secret, which `jwtVerify`
compares against its own secret. -/
structure Jwt where
  sub : Nat
  expiresAt : Nat
  secret : String
deriving DecidableEq

/-- Seven days in milliseconds, the login token lifetime (`expiresIn: "7d"`). -/
def sevenDaysMs : Nat := 7 * 24 * 60 * 60 * 1000

/-- Model of `jwt.sign(\x7b id: uid \x7d, secret, \x7b expiresIn: "7d" \x7d)`. -/
def jwtSign (uid : Nat) (secret : String) (now : Nat) : Jwt :=
  ⟨uid, now + sevenDaysMs, secret⟩

/-- Model of `jwt.verify(token, secret)`: fails closed on a secret mismatch or
an expiry not in the future. -/
def jwtVerify (t : Jwt) (secret : String) (now : Nat) : Option Nat :=
  if t.secret == secret && decide (now < t.expiresAt) then some t.sub else none

/-- Model of `process.env.JWT_SECRET || "dev"` (JS `||`: the empty string is
falsy, so it also falls back to "dev"). -/
def envSecret (jwtSecretEnv : Option String) : String :=
  match jwtSecretEnv with
  | some s => if s == "" then "dev" else s
  | none => "dev"

/-- The user document of src/models/User.ts (authentication-relevant fields;
`favorites` is outside the core). Optional schema fields are `Option`s. -/
structure UserRec where
  id : Nat
  firstName : String
  lastName : String
  age : Int
  email : String
  passwordHash : BDigest
  passwordResetTokenHash : Option String
  passwordResetTokenExp : Option Nat
  resetToken : Option String
  resetTokenExp : Option Nat
deriving DecidableEq

/-- The document store: the users collection. -/
abbrev Store := List UserRec

/-- Model of `User.findOne` keyed on the email field. -/
def findByEmail (store : Store) (email : String) : Option UserRec :=
  store.find? (fun u => u.email == email)

/-- Model of `User.findById`. -/
def findById (store : Store) (id : Nat) : Option UserRec :=
  store.find? (fun u => u.id == id)

/-- Model of `user.save()`: write back the (mutated) document under its id. -/
def saveUser (store : Store) (u : UserRec) : Store :=
  store.map (fun v => if v.id == u.id then u else v)

/-- Response bodies produced by the embedded controllers. -/
inductive Body where
  | msg (m : String)
  | msgDetail (m detail : String)
  | token (t : Jwt)
  | idEmail (id : Nat) (email : String)
  | userView (u : Option UserRec)
deriving DecidableEq

/-- An HTTP response: status code plus JSON body. -/
structure Resp where
  status : Nat
  body : Body
deriving DecidableEq

/-- The fixed deny-list of src/utils/validatePassword.ts. -/
def weakPasswords : List String :=
  ["123456", "password", "qwerty", "abc123",
   "12345678", "123456789", "111111", "password1",
   "123123", "contraseña"]

/-- The symbol class of the strength regex
(codes 94, 123, 125, 34, 126, 96 are the caret, braces, double quote,
tilde and backtick written by code point). -/
def symbolChars : List Char :=
  ['!', '@', '#', '$', '%', Char.ofNat 94, '&', '*', '(', ')', '_', '+', '-', '=',
   Char.ofNat 123, Char.ofNat 125, '[', ']', '|', ';', ':', Char.ofNat 34, '<', '>',
   ',', '.', '?', '/', Char.ofNat 126, Char.ofNat 96]

/-- The uppercase lookahead of the strength regex (ASCII A-Z), as a scan of the
string's character list. -/
def hasUpper (s : String) : Bool :=
  s.data.any (fun c => decide (65 ≤ c.toNat ∧ c.toNat ≤ 90))

/-- The digit lookahead of the strength regex (ASCII 0-9). -/
def hasDigit (s : String) : Bool :=
  s.data.any (fun c => decide (48 ≤ c.toNat ∧ c.toNat ≤ 57))

/-- The symbol lookahead of the strength regex. -/
def hasSymbol (s : String) : Bool :=
  s.data.any (fun c => symbolChars.contains c)

/-- JS `toLowerCase` as used on deny-list candidates (character-wise
lowercasing; the deny-list entries are ASCII apart from the tilde-n, which
lowercasing never produces from another character). -/
def lowerStr (s : String) : String := ⟨s.data.map Char.toLower⟩

/-- src/utils/validatePassword.ts `validatePasswordStrength`: `some err` is a
returned violation message, `none` means the password is acceptable. -/
def validatePasswordStrength (password : String) : Option String :=
  if password == "" then
    some "Password is required."
  else if password.length < 8 then
    some "La contraseña debe tener al menos 8 caracteres."
  else if weakPasswords.contains (lowerStr password) then
    some "La contraseña es demasiado común. Elige otra."
  else if !(hasUpper password && hasDigit password && hasSymbol password) then
    some "La contraseña debe incluir al menos una mayúscula, un número y un símbolo."
  else
    none

/-- A signUp request body; absent JSON fields are `none`. -/
structure SignUpReq where
  firstName : Option String
  lastName : Option String
  age : Option Int
  email : Option String
  password : Option String

/-- signUp of the auth controller (strict variant): missing-fields check
(JS truthiness: absent, empty string or zero age are falsy), age gate,
password policy, duplicate-email check, then create. `salt` models bcrypt's
random salt and `newId` the id the store assigns. -/
def signUp (store : Store) (req : SignUpReq) (salt : Nat) (newId : Nat) : Resp × Store :=
  match req.firstName, req.lastName, req.age, req.email, req.password with
  | some fn, some ln, some a, some e, some p =>
    if fn == "" || ln == "" || a == 0 || e == "" || p == "" then
      (⟨400, .msg "Missing fields"⟩, store)
    else if a < 18 then
      (⟨400, .msg "You must be at least 18 years old to register."⟩, store)
    else
      match validatePasswordStrength p with
      | some err => (⟨400, .msg err⟩, store)
      | none =>
        match findByEmail store e with
        | some _ => (⟨409, .msg "Email already registered"⟩, store)
        | none =>
          let passwordHash := bcryptHash salt p
          let user : UserRec := ⟨newId, fn, ln, a, e, passwordHash, none, none, none, none⟩
          (⟨201, .idEmail newId e⟩, store ++ [user])
  | _, _, _, _, _ => (⟨400, .msg "Missing fields"⟩, store)

/-- login of the auth controller: email lookup, bcrypt compare, JWT issue.
Reads the store only; returns just the response. -/
def login (store : Store) (email password : String)
    (jwtSecretEnv : Option String) (now : Nat) : Resp :=
  match findByEmail store email with
  | none => ⟨401, .msg "Invalid credentials"⟩
  | some user =>
    if !(bcryptCompare password user.passwordHash) then
      ⟨401, .msg "Invalid credentials"⟩
    else
      ⟨200, .token (jwtSign user.id (envSecret jwtSecretEnv) now)⟩

/-- Sixty minutes in milliseconds: the reset-token lifetime. -/
def sixtyMinutesMs : Nat := 60 * 60 * 1000

/-- forgotPassword of the auth controller. `rawToken` models
`crypto.randomBytes(32).toString("hex")`; `mailErr = some m` models a
`sendMail` rejection with message `m`, `none` a successful delivery. The
token hash and expiry are saved before mail is attempted. -/
def forgotPassword (store : Store) (email : Option String) (rawToken : String)
    (now : Nat) (mailErr : Option String) : Resp × Store :=
  match email with
  | none => (⟨400, .msg "Email required"⟩, store)
  | some e =>
    if e == "" then (⟨400, .msg "Email required"⟩, store)
    else
      match findByEmail store e with
      | none => (⟨200, .msg "If the email exists, a reset was sent"⟩, store)
      | some user =>
        let tokenHash := sha256 rawToken
        let exp := now + sixtyMinutesMs
        let user1 := { user with
          passwordResetTokenHash := some tokenHash,
          passwordResetTokenExp := some exp,
          resetToken := none,
          resetTokenExp := none }
        let store1 := saveUser store user1
        match mailErr with
        | some m => (⟨502, .msgDetail "Email service error" m⟩, store1)
        | none => (⟨200, .msg "If the email exists, a reset was sent"⟩, store1)

/-- The mongoose query of resetPassword:
`findOne(\x7b passwordResetTokenHash: tokenHash, passwordResetTokenExp: \x7b $gt: new Date() \x7d \x7d)`
matches a document iff the stored hash equals `tokenHash` and the stored
expiry is strictly in the future (absent fields never match). -/
def resetMatches (u : UserRec) (tokenHash : String) (now : Nat) : Bool :=
  u.passwordResetTokenHash == some tokenHash &&
    (match u.passwordResetTokenExp with
     | some e => decide (now < e)
     | none => false)

/-- resetPassword of the auth controller (strict variant): field presence,
confirmation match, password policy, hashed-token lookup with expiry, then
password overwrite and clearing of all reset-token fields. -/
def resetPassword (store : Store) (token password confirmPassword : Option String)
    (salt : Nat) (now : Nat) : Resp × Store :=
  match token, password, confirmPassword with
  | some t, some p, some c =>
    if t == "" || p == "" || c == "" then
      (⟨400, .msg "Missing fields"⟩, store)
    else if p != c then
      (⟨400, .msg "Passwords do not match"⟩, store)
    else
      match validatePasswordStrength p with
      | some err => (⟨400, .msg err⟩, store)
      | none =>
        let tokenHash := sha256 t
        match store.find? (fun u => resetMatches u tokenHash now) with
        | none => (⟨400, .msg "Invalid or expired token"⟩, store)
        | some user =>
          let user1 := { user with
            passwordHash := bcryptHash salt p,
            passwordResetTokenHash := none,
            passwordResetTokenExp := none,
            resetToken := none,
            resetTokenExp := none }
          (⟨200, .msg "Password updated"⟩, saveUser store user1)
  | _, _, _ => (⟨400, .msg "Missing fields"⟩, store)

/-- changePassword of the user controller: field presence, confirmation
match, password policy, user lookup, current-password verification, then
password overwrite. The reset-token fields are not touched. -/
def changePassword (store : Store) (userId : Nat)
    (currentPassword newPassword confirmPassword : Option String)
    (salt : Nat) : Resp × Store :=
  match currentPassword, newPassword, confirmPassword with
  | some cur, some np, some cp =>
    if cur == "" || np == "" || cp == "" then
      (⟨400, .msg "Missing fields"⟩, store)
    else if np != cp then
      (⟨400, .msg "Passwords do not match"⟩, store)
    else
      match validatePasswordStrength np with
      | some err => (⟨400, .msg err⟩, store)
      | none =>
        match findById store userId with
        | none => (⟨404, .msg "User not found"⟩, store)
        | some user =>
          if !(bcryptCompare cur user.passwordHash) then
            (⟨400, .msg "Current password incorrect"⟩, store)
          else
            (⟨200, .msg "Password changed"⟩,
             saveUser store { user with passwordHash := bcryptHash salt np })
  | _, _, _ => (⟨400, .msg "Missing fields"⟩, store)

/-- An updateMe request body; absent JSON fields are `none`. -/
structure UpdateReq where
  firstName : Option String
  lastName : Option String
  age : Option Int
  email : Option String
  password : Option String

/-- The update document of updateMe: provided profile fields overwrite the
stored ones (mongoose drops `undefined` values from the update), and a
truthy password field overwrites the password hash (`if (password)`:
the empty string is falsy and is skipped). -/
def applyUpdates (u : UserRec) (r : UpdateReq) (salt : Nat) : UserRec :=
  let u1 := match r.firstName with | some v => { u with firstName := v } | none => u
  let u2 := match r.lastName with | some v => { u1 with lastName := v } | none => u1
  let u3 := match r.age with | some v => { u2 with age := v } | none => u2
  let u4 := match r.email with | some v => { u3 with email := v } | none => u3
  match r.password with
  | some p => if p == "" then u4 else { u4 with passwordHash := bcryptHash salt p }
  | none => u4

/-- updateMe of the user controller:
`findByIdAndUpdate(req.userId, updates, \x7b new: true \x7d).select("-passwordHash")`.
No strength validation and no current-password check on the password field.
(The `select` only hides the hash in the serialized response.) -/
def updateMe (store : Store) (userId : Nat) (r : UpdateReq) (salt : Nat) : Resp × Store :=
  match findById store userId with
  | none => (⟨200, .userView none⟩, store)
  | some user =>
    let user1 := applyUpdates user r salt
    (⟨200, .userView (some user1)⟩, saveUser store user1)

/-- requireAuth of src/middleware/auth.ts: the bearer token extracted from
the Authorization header (`none` when the header is missing), verified
against `process.env.JWT_SECRET || "dev"`; `Except.ok uid` models attaching
`req.userId` and calling `next()`. -/
def requireAuth (bearer : Option Jwt) (jwtSecretEnv : Option String)
    (now : Nat) : Except Resp Nat :=
  match bearer with
  | none => .error ⟨401, .msg "Missing Authorization header"⟩
  | some t =>
    match jwtVerify t (envSecret jwtSecretEnv) now with
    | some uid => .ok uid
    | none => .error ⟨401, .msg "Invalid token"⟩

/-! Sample records used by concrete witnesses and counterexamples. -/

/-- A sample user with a pending reset token (hash of "tok", expiry 100 ms). -/
def alice : UserRec :=
  ⟨1, "A", "B", 20, "a@x.com", bcryptHash 0 "Old1pass!",
   some (sha256 "tok"), some 100, none, none⟩

/-- A sample user with no pending reset. -/
def bob : UserRec :=
  ⟨2, "C", "D", 30, "b@x.com", bcryptHash 1 "Bob1pass!",
   none, none, none, none⟩

/-! Helper lemmas -/

/-- The mongoose reset-token query matches exactly when the stored hash
equals the candidate and the stored expiry is strictly in the future. -/
lemma resetMatches_iff (u : UserRec) (h : String) (now : Nat) :
    resetMatches u h now = true ↔
      u.passwordResetTokenHash = some h ∧
      ∃ x, u.passwordResetTokenExp = some x ∧ now < x := by
  unfold resetMatches
  cases hx : u.passwordResetTokenExp <;>
    simp [hx, Bool.and_eq_true, beq_iff_eq]

/-- forgotPassword on an existing email persists the token hash and the
60-minute expiry on that user's record, whatever the mail outcome. -/
lemma forgotPassword_persists (store : Store) (e r : String) (now : Nat)
    (mailErr : Option String) (u : UserRec)
    (he : e ≠ "") (hu : findByEmail store e = some u) :
    ∃ v ∈ (forgotPassword store (some e) r now mailErr).2,
      v.id = u.id ∧ v.passwordResetTokenHash = some (sha256 r) ∧
      v.passwordResetTokenExp = some (now + sixtyMinutesMs) := by
  have he' : (e == "") = false := beq_eq_false_iff_ne.mpr he
  have hmem : u ∈ store := List.mem_of_find?_eq_some hu
  refine ⟨{ u with
      passwordResetTokenHash := some (sha256 r),
      passwordResetTokenExp := some (now + sixtyMinutesMs),
      resetToken := none,
      resetTokenExp := none }, ?_, rfl, rfl, rfl⟩
  simp only [forgotPassword, he', Bool.false_eq_true, if_false, hu]
  cases mailErr <;>
    · simp only [saveUser, List.mem_map]
      exact ⟨u, hmem, by simp⟩

/-- The guard prefix of resetPassword: with fields present, matching and
policy-valid, the call reaches the token lookup. -/
lemma resetPassword_reaches_lookup (s : Store) (t p : String) (salt now : Nat)
    (ht : t ≠ "") (hp : p ≠ "") (hpol : validatePasswordStrength p = none) :
    resetPassword s (some t) (some p) (some p) salt now =
      (match s.find? (fun u => resetMatches u (sha256 t) now) with
       | none => (⟨400, .msg "Invalid or expired token"⟩, s)
       | some user =>
         (⟨200, .msg "Password updated"⟩,
          saveUser s { user with
            passwordHash := bcryptHash salt p,
            passwordResetTokenHash := none,
            passwordResetTokenExp := none,
            resetToken := none,
            resetTokenExp := none })) := by
  have hcond : (t == "" || p == "" || p == "") = false := by
    simp only [Bool.or_eq_false_iff, beq_eq_false_iff_ne, ne_eq]
    exact ⟨⟨ht, hp⟩, hp⟩
  have hne : (p != p) = false := by simp
  simp only [resetPassword, hcond, Bool.false_eq_true, if_false, hne, hpol]

/-- The store forgotPassword leaves behind on an existing email: the found
record updated with the token hash, the 60-minute expiry and cleared legacy
fields, written back under its id — for either mail outcome. -/
lemma forgotPassword_store_eq (store : Store) (e r : String) (now : Nat)
    (mailErr : Option String) (u : UserRec)
    (he : e ≠ "") (hu : findByEmail store e = some u) :
    (forgotPassword store (some e) r now mailErr).2 =
      saveUser store { u with
        passwordResetTokenHash := some (sha256 r),
        passwordResetTokenExp := some (now + sixtyMinutesMs),
        resetToken := none,
        resetTokenExp := none } := by
  have he' : (e == "") = false := beq_eq_false_iff_ne.mpr he
  simp only [forgotPassword, he', Bool.false_eq_true, if_false, hu]
  cases mailErr <;> rfl

/-- With present, matching, policy-valid passwords, CompleteReset succeeds
iff some record holds the SHA-256 of the raw token with an expiry strictly
after `now`. -/
lemma resetPassword_accepts_iff (s : Store) (t p : String) (salt now : Nat)
    (ht : t ≠ "") (hp : p ≠ "") (hpol : validatePasswordStrength p = none) :
    (resetPassword s (some t) (some p) (some p) salt now).1
        = ⟨200, .msg "Password updated"⟩ ↔
      ∃ w ∈ s, w.passwordResetTokenHash = some (sha256 t) ∧
        ∃ x, w.passwordResetTokenExp = some x ∧ now < x := by
  rw [resetPassword_reaches_lookup s t p salt now ht hp hpol]
  cases hf : s.find? (fun u => resetMatches u (sha256 t) now) with
  | none =>
    dsimp only
    refine iff_of_false (by decide) ?_
    rintro ⟨w, hw, hh, x, hx, hlt⟩
    have hno := List.find?_eq_none.mp hf w hw
    exact hno ((resetMatches_iff w _ now).mpr ⟨hh, x, hx, hlt⟩)
  | some w =>
    dsimp only
    refine iff_of_true rfl ?_
    have hpw0 := List.find?_some hf
    have hpw : resetMatches w (sha256 t) now = true := hpw0
    obtain ⟨hh, x, hx, hlt⟩ := (resetMatches_iff w _ now).mp hpw
    exact ⟨w, List.mem_of_find?_eq_some hf, hh, x, hx, hlt⟩

/-! Theorems -/

/-- Claim C4: a reset token issued by RequestReset at time T is persisted
with expiry T + 60 minutes; CompleteReset (with present, matching,
policy-valid passwords) accepts a raw token iff some record stores the
SHA-256 of that token with an expiry strictly after the current time; and
for a freshly issued token (its hash held by no prior record) acceptance
holds at T+59min and fails with the invalid-or-expired error at T+61min. -/
theorem reset_token_sixty_minute_window
    (store : Store) (e r p : String) (u : UserRec) (T salt : Nat)
    (mailErr : Option String)
    (he : e ≠ "") (hr : r ≠ "") (hp : p ≠ "")
    (hpol : validatePasswordStrength p = none)
    (hu : findByEmail store e = some u)
    (hfresh : ∀ w ∈ store, w.passwordResetTokenHash ≠ some (sha256 r)) :
    (∃ v ∈ (forgotPassword store (some e) r T mailErr).2,
        v.id = u.id ∧ v.passwordResetTokenHash = some (sha256 r) ∧
        v.passwordResetTokenExp = some (T + sixtyMinutesMs)) ∧
    (∀ (s : Store) (t : String) (now : Nat), t ≠ "" →
       ((resetPassword s (some t) (some p) (some p) salt now).1
           = ⟨200, .msg "Password updated"⟩ ↔
         ∃ w ∈ s, w.passwordResetTokenHash = some (sha256 t) ∧
           ∃ x, w.passwordResetTokenExp = some x ∧ now < x)) ∧
    (resetPassword (forgotPassword store (some e) r T mailErr).2
        (some r) (some p) (some p) salt (T + 59 * 60 * 1000)).1
      = ⟨200, .msg "Password updated"⟩ ∧
    (resetPassword (forgotPassword store (some e) r T mailErr).2
        (some r) (some p) (some p) salt (T + 61 * 60 * 1000)).1
      = ⟨400, .msg "Invalid or expired token"⟩ := by
  obtain ⟨v, hv, hvid, hvh, hvx⟩ :=
    forgotPassword_persists store e r T mailErr u he hu
  refine ⟨⟨v, hv, hvid, hvh, hvx⟩,
    fun s t now ht => resetPassword_accepts_iff s t p salt now ht hp hpol, ?_, ?_⟩
  · exact (resetPassword_accepts_iff _ r p salt _ hr hp hpol).mpr
      ⟨v, hv, hvh, T + sixtyMinutesMs, hvx, by simp only [sixtyMinutesMs]; omega⟩
  · rw [resetPassword_reaches_lookup _ r p salt _ hr hp hpol]
    have hnone : (forgotPassword store (some e) r T mailErr).2.find?
        (fun w => resetMatches w (sha256 r) (T + 61 * 60 * 1000)) = none := by
      rw [List.find?_eq_none]
      intro w hw
      rw [forgotPassword_store_eq store e r T mailErr u he hu] at hw
      simp only [saveUser, List.mem_map] at hw
      obtain ⟨w0, hw0, rfl⟩ := hw
      split
      · intro hm
        obtain ⟨hh, x, hx, hlt⟩ := (resetMatches_iff _ _ _).mp hm
        rw [show ({ u with
            passwordResetTokenHash := some (sha256 r),
            passwordResetTokenExp := some (T + sixtyMinutesMs),
            resetToken := none,
            resetTokenExp := none } : UserRec).passwordResetTokenExp
          = some (T + sixtyMinutesMs) from rfl] at hx
        have hxeq : x = T + sixtyMinutesMs := (Option.some.injEq _ _).mp hx.symm
        subst hxeq
        simp only [sixtyMinutesMs] at hlt
        omega
      · intro hm
        obtain ⟨hh, _⟩ := (resetMatches_iff _ _ _).mp hm
        exact hfresh w0 hw0 hh
    rw [hnone]

/-- Claim C4 witness: a fresh token issued at time 0 for a concrete user is
accepted at 59 minutes and rejected as invalid-or-expired at 61 minutes. -/
theorem reset_token_sixty_minute_window_witness :
    (resetPassword (forgotPassword [bob] (some "b@x.com") "tok2" 0 none).2
        (some "tok2") (some "Abc12345!") (some "Abc12345!") 3 (0 + 59 * 60 * 1000)).1
      = ⟨200, .msg "Password updated"⟩ ∧
    (resetPassword (forgotPassword [bob] (some "b@x.com") "tok2" 0 none).2
        (some "tok2") (some "Abc12345!") (some "Abc12345!") 3 (0 + 61 * 60 * 1000)).1
      = ⟨400, .msg "Invalid or expired token"⟩ :=
  (reset_token_sixty_minute_window [bob] "b@x.com" "tok2" "Abc12345!" bob 0 3 none
    (by decide) (by decide) (by decide) (by decide) (by decide)
    (by decide)).2.2

/-- Claim C1: on a Register request with all required fields present (truthy)
and age at least 18, a password failing the policy is rejected with that
policy violation, the store is returned unchanged (no record created, no
hash stored), and the result is the same for every store — in particular for
stores already containing the email, so the rejection happens before the
duplicate-email check. -/
theorem signUp_policy_rejects_before_email_check
    (store : Store) (fn ln e p : String) (a : Int) (salt newId : Nat) (err : String)
    (hfn : fn ≠ "") (hln : ln ≠ "") (he : e ≠ "") (hp : p ≠ "")
    (ha : 18 ≤ a)
    (herr : validatePasswordStrength p = some err) :
    signUp store ⟨some fn, some ln, some a, some e, some p⟩ salt newId
      = (⟨400, .msg err⟩, store) := by
  have hcond : (fn == "" || ln == "" || a == 0 || e == "" || p == "") = false := by
    simp only [Bool.or_eq_false_iff, beq_eq_false_iff_ne, ne_eq]
    refine ⟨⟨⟨⟨hfn, hln⟩, by omega⟩, he⟩, hp⟩
  simp only [signUp, hcond, Bool.false_eq_true, if_false, herr]
  rw [if_neg (by omega)]

/-- Claim C1 witness: a concrete too-short password is rejected with the
policy message, with the email already present in the store. -/
theorem signUp_policy_rejects_before_email_check_witness :
    validatePasswordStrength "abc" =
      some "La contraseña debe tener al menos 8 caracteres." ∧
    signUp [bob] ⟨some "C2", some "D2", some 30, some "b@x.com", some "abc"⟩ 5 9
      = (⟨400, .msg "La contraseña debe tener al menos 8 caracteres."⟩, [bob]) :=
  ⟨by decide,
   signUp_policy_rejects_before_email_check [bob] "C2" "D2" "b@x.com" "abc" 30 5 9
     "La contraseña debe tener al menos 8 caracteres."
     (by decide) (by decide) (by decide) (by decide) (by decide) (by decide)⟩

/-- Claim C3: a reset token is single-use. If the token lookup finds a user
(first CompleteReset succeeds) and that user is the only holder of the
token's hash, then replaying the same raw token — with present, matching,
policy-valid passwords — against the resulting store fails with the
invalid-or-expired error, at any later time and salt. Moreover a record can
hold at most one valid token hash at any time. -/
theorem reset_token_single_use
    (store : Store) (t p p2 : String) (salt salt2 now now2 : Nat) (u : UserRec)
    (ht : t ≠ "") (hp : p ≠ "") (hp2 : p2 ≠ "")
    (hpol : validatePasswordStrength p = none)
    (hpol2 : validatePasswordStrength p2 = none)
    (hfind : store.find? (fun w => resetMatches w (sha256 t) now) = some u)
    (huniq : ∀ w ∈ store, w.passwordResetTokenHash = some (sha256 t) → w.id = u.id) :
    (resetPassword store (some t) (some p) (some p) salt now).1
        = ⟨200, .msg "Password updated"⟩ ∧
    (resetPassword (resetPassword store (some t) (some p) (some p) salt now).2
        (some t) (some p2) (some p2) salt2 now2).1
      = ⟨400, .msg "Invalid or expired token"⟩ ∧
    ∀ (w : UserRec) (h1 h2 : String) (m : Nat),
      resetMatches w h1 m = true → resetMatches w h2 m = true → h1 = h2 := by
  have hstep := resetPassword_reaches_lookup store t p salt now ht hp hpol
  refine ⟨?_, ?_, ?_⟩
  · rw [hstep, hfind]
  · rw [hstep, hfind]
    dsimp only
    rw [resetPassword_reaches_lookup _ t p2 salt2 now2 ht hp2 hpol2]
    have hnone : (saveUser store { u with
        passwordHash := bcryptHash salt p,
        passwordResetTokenHash := none,
        passwordResetTokenExp := none,
        resetToken := none,
        resetTokenExp := none }).find?
        (fun w => resetMatches w (sha256 t) now2) = none := by
      rw [List.find?_eq_none]
      intro v hv
      simp only [saveUser, List.mem_map] at hv
      obtain ⟨w0, hw0, rfl⟩ := hv
      split
      · intro hm
        obtain ⟨hh, -⟩ := (resetMatches_iff _ _ _).mp hm
        exact Option.noConfusion hh
      · rename_i hid
        intro hm
        obtain ⟨hh, -⟩ := (resetMatches_iff _ _ _).mp hm
        have hw0id := huniq w0 hw0 hh
        exact hid (by show (w0.id == u.id) = true; exact beq_iff_eq.mpr hw0id)
    rw [hnone]
  · intro w h1 h2 m hm1 hm2
    have e1 := ((resetMatches_iff w h1 m).mp hm1).1
    have e2 := ((resetMatches_iff w h2 m).mp hm2).1
    rw [e1] at e2
    exact ((Option.some.injEq _ _).mp e2)

/-- Claim C3 witness: completing a reset with a concrete valid token
succeeds, and replaying the very same raw token afterwards is rejected as
invalid or expired. -/
theorem reset_token_single_use_witness :
    (resetPassword [alice] (some "tok") (some "Abc12345!") (some "Abc12345!") 3 50).1
      = ⟨200, .msg "Password updated"⟩ ∧
    (resetPassword
        (resetPassword [alice] (some "tok") (some "Abc12345!") (some "Abc12345!") 3 50).2
        (some "tok") (some "Xyz98765!") (some "Xyz98765!") 4 50).1
      = ⟨400, .msg "Invalid or expired token"⟩ := by
  have h := reset_token_single_use [alice] "tok" "Abc12345!" "Xyz98765!" 3 4 50 50 alice
    (by decide) (by decide) (by decide) (by decide) (by decide) (by decide) (by decide)
  exact ⟨h.1, h.2.1⟩

/-- Claim C6: the login failure for an unknown email and the login failure
for a known email with a non-verifying password are the same response:
status 401 with message "Invalid credentials", disclosing nothing about
email existence. -/
theorem login_failures_indistinguishable
    (store : Store) (e1 pw1 e2 pw2 : String) (env : Option String) (now : Nat)
    (u : UserRec)
    (h1 : findByEmail store e1 = none)
    (h2 : findByEmail store e2 = some u)
    (h3 : bcryptCompare pw2 u.passwordHash = false) :
    login store e1 pw1 env now = ⟨401, .msg "Invalid credentials"⟩ ∧
    login store e2 pw2 env now = ⟨401, .msg "Invalid credentials"⟩ := by
  constructor
  · simp only [login, h1]
  · simp only [login, h2, h3, Bool.not_false, if_true]

/-- Claim C6 witness: unknown email and wrong password for a known email
yield the identical concrete response. -/
theorem login_failures_indistinguishable_witness :
    login [alice] "zz@x.com" "whatever" none 0 = ⟨401, .msg "Invalid credentials"⟩ ∧
    login [alice] "a@x.com" "WrongPass" none 0 = ⟨401, .msg "Invalid credentials"⟩ :=
  login_failures_indistinguishable [alice] "zz@x.com" "whatever" "a@x.com" "WrongPass"
    none 0 alice (by decide) (by decide) (by decide)

/-- Claim C7: for a non-empty email, RequestReset returns the identical
neutral success response whether the email is absent from the store (for any
mail outcome — no mail is attempted) or present with successful delivery;
only a mail-delivery fault yields a different, non-neutral 502 response, and
in that case the token hash and expiry are already persisted. -/
theorem forgot_password_neutral_response
    (store : Store) (e r : String) (now : Nat) (he : e ≠ "") :
    (findByEmail store e = none →
       ∀ mailErr, forgotPassword store (some e) r now mailErr
         = (⟨200, .msg "If the email exists, a reset was sent"⟩, store)) ∧
    (∀ u, findByEmail store e = some u →
       (forgotPassword store (some e) r now none).1
         = ⟨200, .msg "If the email exists, a reset was sent"⟩) ∧
    (∀ u m, findByEmail store e = some u →
       (forgotPassword store (some e) r now (some m)).1
           = ⟨502, .msgDetail "Email service error" m⟩ ∧
       (forgotPassword store (some e) r now (some m)).1
           ≠ ⟨200, .msg "If the email exists, a reset was sent"⟩ ∧
       ∃ v ∈ (forgotPassword store (some e) r now (some m)).2,
         v.id = u.id ∧ v.passwordResetTokenHash = some (sha256 r) ∧
         v.passwordResetTokenExp = some (now + sixtyMinutesMs)) := by
  have he' : (e == "") = false := beq_eq_false_iff_ne.mpr he
  refine ⟨?_, ?_, ?_⟩
  · intro h0 mailErr
    simp only [forgotPassword, he', Bool.false_eq_true, if_false, h0]
  · intro u hu
    simp only [forgotPassword, he', Bool.false_eq_true, if_false, hu]
  · intro u m hu
    refine ⟨?_, ?_, forgotPassword_persists store e r now (some m) u he hu⟩
    · simp only [forgotPassword, he', Bool.false_eq_true, if_false, hu]
    · simp only [forgotPassword, he', Bool.false_eq_true, if_false, hu]
      intro hcontra
      exact Body.noConfusion (congrArg Resp.body hcontra)

/-- Claim C7 witness: concrete RequestReset calls — unknown email with a
failing mail service, known email with working mail, and known email with
failing mail; the first two return the identical neutral body, the third a
502 with the token already stored. -/
theorem forgot_password_neutral_response_witness :
    forgotPassword [bob] (some "zz@x.com") "tok3" 7 (some "boom")
      = (⟨200, .msg "If the email exists, a reset was sent"⟩, [bob]) ∧
    (forgotPassword [bob] (some "b@x.com") "tok3" 7 none).1
      = ⟨200, .msg "If the email exists, a reset was sent"⟩ ∧
    (forgotPassword [bob] (some "b@x.com") "tok3" 7 (some "boom")).1
      = ⟨502, .msgDetail "Email service error" "boom"⟩ ∧
    ∃ v ∈ (forgotPassword [bob] (some "b@x.com") "tok3" 7 (some "boom")).2,
      v.id = bob.id ∧ v.passwordResetTokenHash = some (sha256 "tok3") ∧
      v.passwordResetTokenExp = some (7 + sixtyMinutesMs) := by
  have h1 := (forgot_password_neutral_response [bob] "zz@x.com" "tok3" 7
    (by decide)).1 (by decide) (some "boom")
  have h2 := (forgot_password_neutral_response [bob] "b@x.com" "tok3" 7
    (by decide)).2.1 bob (by decide)
  have h3 := (forgot_password_neutral_response [bob] "b@x.com" "tok3" 7
    (by decide)).2.2 bob "boom" (by decide)
  exact ⟨h1, h2, h3.1, h3.2.2⟩

/-- Claim C8: a CompleteReset request with all three fields present but
mismatching passwords fails with the mismatch error and leaves the store
exactly as it was, for every store and time — in particular the outcome is
independent of whether any matching (valid or expired) token exists. -/
theorem resetPassword_mismatch_no_mutation
    (store : Store) (t p c : String) (salt now : Nat)
    (ht : t ≠ "") (hp : p ≠ "") (hc : c ≠ "") (hne : p ≠ c) :
    resetPassword store (some t) (some p) (some c) salt now
      = (⟨400, .msg "Passwords do not match"⟩, store) := by
  have hcond : (t == "" || p == "" || c == "") = false := by
    simp only [Bool.or_eq_false_iff, beq_eq_false_iff_ne, ne_eq]
    exact ⟨⟨ht, hp⟩, hc⟩
  have hne' : (p != c) = true := by
    simp only [bne_iff_ne, ne_eq]
    exact hne
  simp only [resetPassword, hcond, Bool.false_eq_true, if_false, hne', if_true]

/-- Claim C8 witness: a concrete mismatching CompleteReset, replayed against
a store holding a currently valid token for that very raw token, returns the
mismatch error and the untouched store. -/
theorem resetPassword_mismatch_no_mutation_witness :
    resetPassword [alice] (some "tok") (some "Abc12345!") (some "Xyz98765!") 3 50
      = (⟨400, .msg "Passwords do not match"⟩, [alice]) :=
  resetPassword_mismatch_no_mutation [alice] "tok" "Abc12345!" "Xyz98765!" 3 50
    (by decide) (by decide) (by decide) (by decide)

/-- Profile updates never touch the reset-token fields: applyUpdates leaves
passwordResetTokenHash and passwordResetTokenExp unchanged. -/
lemma applyUpdates_preserves_reset (u : UserRec) (r : UpdateReq) (salt : Nat) :
    (applyUpdates u r salt).passwordResetTokenHash = u.passwordResetTokenHash ∧
    (applyUpdates u r salt).passwordResetTokenExp = u.passwordResetTokenExp := by
  obtain ⟨f, l, ag, em, pw⟩ := r
  simp only [applyUpdates]
  cases pw with
  | none => cases f <;> cases l <;> cases ag <;> cases em <;> exact ⟨rfl, rfl⟩
  | some p =>
    rcases Bool.eq_false_or_eq_true (p == "") with hp | hp <;>
      cases f <;> cases l <;> cases ag <;> cases em <;>
        refine ⟨?_, ?_⟩ <;> simp [hp]

/-- Claim C2 counterexample: a user with a pending, unexpired reset token
completes changePassword successfully, and afterwards the previously issued
raw token still authorizes CompleteReset — the pending reset-token state was
not cleared or invalidated. -/
theorem changePassword_leaves_reset_token_usable_cex :
    (changePassword [alice] 1 (some "Old1pass!") (some "Newpass1!")
        (some "Newpass1!") 4).1 = ⟨200, .msg "Password changed"⟩ ∧
    (resetPassword
        (changePassword [alice] 1 (some "Old1pass!") (some "Newpass1!")
          (some "Newpass1!") 4).2
        (some "tok") (some "Abc12345!") (some "Abc12345!") 5 50).1
      = ⟨200, .msg "Password updated"⟩ := by decide

/-- Claim C2 as amended: a successful changePassword overwrites only the
password hash — the reset-token fields of the record are written back
unchanged — and a password-setting profile update (applyUpdates) likewise
leaves both reset-token fields unchanged; a pending reset token therefore
survives a password change and keeps authorizing CompleteReset until it
expires or is consumed or superseded. -/
theorem changePassword_does_not_invalidate_reset_token
    (store : Store) (uid : Nat) (cur np : String) (salt : Nat) (u : UserRec)
    (ur : UpdateReq) (salt2 : Nat)
    (hcur : cur ≠ "") (hnp : np ≠ "")
    (hpol : validatePasswordStrength np = none)
    (hfind : findById store uid = some u)
    (hok : bcryptCompare cur u.passwordHash = true) :
    changePassword store uid (some cur) (some np) (some np) salt
      = (⟨200, .msg "Password changed"⟩,
         saveUser store { u with passwordHash := bcryptHash salt np }) ∧
    ({ u with passwordHash := bcryptHash salt np } : UserRec).passwordResetTokenHash
      = u.passwordResetTokenHash ∧
    ({ u with passwordHash := bcryptHash salt np } : UserRec).passwordResetTokenExp
      = u.passwordResetTokenExp ∧
    (applyUpdates u ur salt2).passwordResetTokenHash = u.passwordResetTokenHash ∧
    (applyUpdates u ur salt2).passwordResetTokenExp = u.passwordResetTokenExp := by
  have hcond : (cur == "" || np == "" || np == "") = false := by
    simp only [Bool.or_eq_false_iff, beq_eq_false_iff_ne, ne_eq]
    exact ⟨⟨hcur, hnp⟩, hnp⟩
  have hne : (np != np) = false := by simp
  obtain ⟨h1, h2⟩ := applyUpdates_preserves_reset u ur salt2
  refine ⟨?_, rfl, rfl, h1, h2⟩
  simp only [changePassword, hcond, Bool.false_eq_true, if_false, hne, hpol,
    hfind, hok, Bool.not_true]

/-- Claim C2 witness (amended form): the concrete password change writes
back the record with its pending token hash and expiry intact. -/
theorem changePassword_does_not_invalidate_reset_token_witness :
    changePassword [alice] 1 (some "Old1pass!") (some "Newpass1!")
        (some "Newpass1!") 4
      = (⟨200, .msg "Password changed"⟩,
         saveUser [alice] { alice with passwordHash := bcryptHash 4 "Newpass1!" }) ∧
    ({ alice with passwordHash := bcryptHash 4 "Newpass1!" } : UserRec).passwordResetTokenHash
      = alice.passwordResetTokenHash ∧
    ({ alice with passwordHash := bcryptHash 4 "Newpass1!" } : UserRec).passwordResetTokenExp
      = alice.passwordResetTokenExp ∧
    (applyUpdates alice ⟨none, none, none, none, some "x"⟩ 9).passwordResetTokenHash
      = alice.passwordResetTokenHash ∧
    (applyUpdates alice ⟨none, none, none, none, some "x"⟩ 9).passwordResetTokenExp
      = alice.passwordResetTokenExp :=
  changePassword_does_not_invalidate_reset_token [alice] 1 "Old1pass!" "Newpass1!" 4
    alice ⟨none, none, none, none, some "x"⟩ 9
    (by decide) (by decide) (by decide) (by decide) (by decide)

/-- Claim C9 counterexample: with the password field present but equal to
the empty string, updateMe does not replace the stored password hash (the
store is returned unchanged), refuting "for every string value". -/
theorem updateMe_empty_password_not_installed_cex :
    (updateMe [alice] 1 ⟨none, none, none, none, some ""⟩ 9).2 = [alice] ∧
    alice.passwordHash ≠ bcryptHash 9 "" := by decide

/-- Claim C9 as amended: for every non-empty password string, updateMe
replaces the stored passwordHash with the bcrypt hash of that value — with
no password-strength check and no current-password verification (no such
hypothesis is needed), so a policy-failing password is installed. -/
theorem updateMe_installs_any_nonempty_password
    (store : Store) (uid : Nat) (p : String) (salt : Nat) (u : UserRec)
    (hp : p ≠ "") (hfind : findById store uid = some u) :
    updateMe store uid ⟨none, none, none, none, some p⟩ salt
      = (⟨200, .userView (some { u with passwordHash := bcryptHash salt p })⟩,
         saveUser store { u with passwordHash := bcryptHash salt p }) := by
  have hp' : (p == "") = false := beq_eq_false_iff_ne.mpr hp
  simp only [updateMe, hfind, applyUpdates, hp', Bool.false_eq_true, if_false]

/-- Claim C9 witness: the one-character password "x" fails the policy yet is
installed as the account password hash by updateMe. -/
theorem updateMe_installs_any_nonempty_password_witness :
    validatePasswordStrength "x"
      = some "La contraseña debe tener al menos 8 caracteres." ∧
    updateMe [alice] 1 ⟨none, none, none, none, some "x"⟩ 9
      = (⟨200, .userView (some { alice with passwordHash := bcryptHash 9 "x" })⟩,
         saveUser [alice] { alice with passwordHash := bcryptHash 9 "x" }) :=
  ⟨by decide,
   updateMe_installs_any_nonempty_password [alice] 1 "x" 9 alice
     (by decide) (by decide)⟩

/-- Claim C10: with JWT_SECRET absent, the secret falls back to the constant
"dev" in both login and the request-authentication gate; a token signed at
login under the fallback is accepted by requireAuth under the fallback
(for any user id) while it is unexpired — the process does not fail for lack
of a signing secret. -/
theorem jwt_dev_secret_fallback
    (store : Store) (email pw : String) (now1 now2 uid : Nat) (u : UserRec)
    (hfind : findByEmail store email = some u)
    (hok : bcryptCompare pw u.passwordHash = true)
    (hnow : now2 < now1 + sevenDaysMs) :
    envSecret none = "dev" ∧
    login store email pw none now1 = ⟨200, .token (jwtSign u.id "dev" now1)⟩ ∧
    requireAuth (some (jwtSign uid "dev" now1)) none now2 = .ok uid := by
  refine ⟨rfl, ?_, ?_⟩
  · simp only [login, hfind, hok, Bool.not_true, Bool.false_eq_true, if_false]
    rfl
  · simp [requireAuth, jwtVerify, jwtSign, envSecret, hnow]

/-- Claim C10 witness: a concrete login under a missing JWT_SECRET issues a
"dev"-signed token, and requireAuth accepts a "dev"-signed token. -/
theorem jwt_dev_secret_fallback_witness :
    envSecret none = "dev" ∧
    login [alice] "a@x.com" "Old1pass!" none 0 = ⟨200, .token (jwtSign 1 "dev" 0)⟩ ∧
    requireAuth (some (jwtSign 42 "dev" 0)) none 1000 = .ok 42 :=
  jwt_dev_secret_fallback [alice] "a@x.com" "Old1pass!" 0 1000 42 alice
    (by decide) (by decide) (by decide)

/-- The paired-fields invariant: a record either has both reset-token fields
or neither. -/
def resetPaired (u : UserRec) : Prop :=
  u.passwordResetTokenHash.isSome = u.passwordResetTokenExp.isSome

instance (u : UserRec) : Decidable (resetPaired u) := by
  unfold resetPaired; infer_instance

/-- The invariant over the whole store. -/
def storePaired (s : Store) : Prop := ∀ u ∈ s, resetPaired u

instance (s : Store) : Decidable (storePaired s) :=
  List.decidableBAll _ s

/-- Writing back a paired record preserves the store invariant. -/
lemma storePaired_saveUser {s : Store} {u : UserRec}
    (hs : storePaired s) (hu : resetPaired u) : storePaired (saveUser s u) := by
  intro v hv
  simp only [saveUser, List.mem_map] at hv
  obtain ⟨w, hw, rfl⟩ := hv
  split
  · exact hu
  · exact hs w hw

/-- Appending a paired record preserves the store invariant. -/
lemma storePaired_append {s : Store} {u : UserRec}
    (hs : storePaired s) (hu : resetPaired u) : storePaired (s ++ [u]) := by
  intro v hv
  rcases List.mem_append.mp hv with h | h
  · exact hs v h
  · rw [List.mem_singleton.mp h]; exact hu

/-- Claim C5: every core operation preserves the invariant that
passwordResetTokenHash and passwordResetTokenExp are both present or both
absent — signUp (which creates records with neither), forgotPassword (which
sets both), resetPassword (which clears both), changePassword and updateMe
(which touch neither). login only reads the store (its embedding returns no
store), so the invariant holds on every reachable store. -/
theorem reset_fields_paired_invariant
    (store : Store) (hs : storePaired store)
    (req : SignUpReq) (salt newId : Nat)
    (email : Option String) (rawToken : String) (now : Nat) (mailErr : Option String)
    (tok pw cpw : Option String) (salt2 now2 : Nat)
    (uid : Nat) (cur np cp : Option String) (salt3 : Nat)
    (uid2 : Nat) (ur : UpdateReq) (salt4 : Nat) :
    storePaired (signUp store req salt newId).2 ∧
    storePaired (forgotPassword store email rawToken now mailErr).2 ∧
    storePaired (resetPassword store tok pw cpw salt2 now2).2 ∧
    storePaired (changePassword store uid cur np cp salt3).2 ∧
    storePaired (updateMe store uid2 ur salt4).2 := by
  refine ⟨?_, ?_, ?_, ?_, ?_⟩
  · obtain ⟨f, l, ag, em, p⟩ := req
    simp only [signUp]
    cases f <;> cases l <;> cases ag <;> cases em <;> cases p <;> try exact hs
    repeat' split
    all_goals try exact hs
    all_goals exact storePaired_append hs rfl
  · cases email with
    | none => exact hs
    | some e =>
      simp only [forgotPassword]
      repeat' split
      all_goals try exact hs
      all_goals exact storePaired_saveUser hs rfl
  · simp only [resetPassword]
    cases tok <;> cases pw <;> cases cpw <;> try exact hs
    repeat' split
    all_goals try exact hs
    all_goals exact storePaired_saveUser hs rfl
  · simp only [changePassword]
    cases cur <;> cases np <;> cases cp <;> try exact hs
    repeat' split
    all_goals try exact hs
    all_goals
      rename_i user heq hcmp
      exact storePaired_saveUser hs (hs user (List.mem_of_find?_eq_some heq))
  · simp only [updateMe]
    split
    · exact hs
    rename_i user heq
    obtain ⟨h1, h2⟩ := applyUpdates_preserves_reset user ur salt4
    apply storePaired_saveUser hs
    unfold resetPaired
    rw [h1, h2]
    exact hs user (List.mem_of_find?_eq_some heq)

/-- Claim C5 witness: the invariant holds after each concrete operation on a
concrete paired store. -/
theorem reset_fields_paired_invariant_witness :
    storePaired (signUp [alice, bob]
        ⟨some "F", some "L", some 33, some "f@x.com", some "Abc12345!"⟩ 1 3).2 ∧
    storePaired (forgotPassword [alice, bob] (some "a@x.com") "tokW" 0 none).2 ∧
    storePaired (resetPassword [alice, bob] (some "tok") (some "Abc12345!")
        (some "Abc12345!") 2 50).2 ∧
    storePaired (changePassword [alice, bob] 1 (some "Old1pass!")
        (some "Newpass1!") (some "Newpass1!") 3).2 ∧
    storePaired (updateMe [alice, bob] 2 ⟨some "Q", none, none, none, some "x"⟩ 4).2 :=
  reset_fields_paired_invariant [alice, bob] (by decide)
    ⟨some "F", some "L", some 33, some "f@x.com", some "Abc12345!"⟩ 1 3
    (some "a@x.com") "tokW" 0 none
    (some "tok") (some "Abc12345!") (some "Abc12345!") 2 50
    1 (some "Old1pass!") (some "Newpass1!") (some "Newpass1!") 3
    2 ⟨some "Q", none, none, none, some "x"⟩ 4

end Lumina
